import Mathlib

/-!
# Verification of the Torrz VoIP backend HTTP server

Shallow embedding of `src/server.js`: an Express application exposing
token issuance, call initiation/termination, TwiML (call-control markup)
rendering, SMS sending, and a placeholder OTP flow, all delegating to a
telephony provider.  Handlers are embedded as pure functions from the
request (plus per-request external inputs: clock, random source, provider
outcomes) to a response together with the list of provider-visible side
effects.
-/

namespace Torrz

/-- A JSON-ish JavaScript value as seen by the Express handlers
(request bodies parsed by `body-parser`, query parameters, response
bodies).  `undefined` is the result of reading an absent property. -/
inductive JVal where
  | undefined : JVal
  | null : JVal
  | bool (b : Bool) : JVal
  | num (n : Int) : JVal
  | str (s : String) : JVal
  | arr (xs : List JVal) : JVal
  | obj (fields : List (String × JVal)) : JVal

/-- JavaScript truthiness, as used by `if (x)`, `!x` and `x || y` in the
handlers.  `undefined`, `null`, `false`, `0` and `""` are falsy. -/
def truthy : JVal → Bool
  | .undefined => false
  | .null => false
  | .bool b => b
  | .num n => n != 0
  | .str s => s != ""
  | .arr _ => true
  | .obj _ => true

/-- JavaScript `a || b`: returns `a` if truthy, else `b`. -/
def jsOr (a b : JVal) : JVal :=
  if truthy a then a else b

/-- Property access `o.k` on a parsed value: looks up the field on an
object, yields `undefined` otherwise (the handlers only ever access
properties of `req.body` / `req.query`, which are objects). -/
def getField (v : JVal) (k : String) : JVal :=
  match v with
  | .obj fields => (fields.lookup k).getD .undefined
  | _ => .undefined

/-- JavaScript `v.length`: the length of a string or array, the `length`
property of an object, `undefined` for numbers and booleans.  (On `null`
or `undefined` the access would throw, but every handler checks
truthiness first, so those cases are unreachable; we return `undefined`.) -/
def jsGetLength : JVal → JVal
  | .str s => .num s.length
  | .arr xs => .num xs.length
  | .obj fields => (fields.lookup "length").getD .undefined
  | _ => .undefined

/-- JavaScript strict equality `v === 6` (the comparison performed by the
OTP verify handler on `code.length`): true exactly when `v` is the
number 6. -/
def strictEqSix : JVal → Bool
  | .num n => n == 6
  | _ => false

/-- Decimal rendering of a natural number, as JavaScript
`Number.prototype.toString` produces for a non-negative integer:
big-endian decimal digits, `"0"` for zero. -/
def natToDecString (n : Nat) : String :=
  if n = 0 then "0"
  else String.mk (((Nat.digits 10 n).map Nat.digitChar).reverse)

/-- Decimal rendering of an integer (JavaScript `toString` on an
integral number). -/
def intToDecString (i : Int) : String :=
  if i < 0 then "-" ++ natToDecString i.natAbs else natToDecString i.toNat

/-- JavaScript string coercion `"" + v`, used by the inbound-SMS
auto-reply (`'...We received: ' + Body`). -/
def jsToString : JVal → String
  | .undefined => "undefined"
  | .null => "null"
  | .bool b => if b then "true" else "false"
  | .num n => intToDecString n
  | .str s => s
  | .arr _ => ""
  | .obj _ => "[object Object]"

/-- The environment configuration the server reads from `process.env`. -/
structure Env where
  accountSid : String
  authToken : String
  apiKey : String
  apiSecret : String
  twimlAppSid : String
  phoneNumber : String

/-- Per-request external inputs: the clock (`Date.now()`,
`new Date().toISOString()`), the random source (`Math.random()`), and the
outcomes of the asynchronous provider operations a handler may await.
Each provider outcome is either the thrown error's message or the fields
of the returned resource. -/
structure Ext where
  nowMs : Nat
  isoNow : String
  rand : ℚ
  tokenSign : Except String String
  messageCreate : Except String String
  callCreate : Except String (String × String)
  callUpdate : Except String (String × String)

/-- An HTTP request as Express presents it to a handler. -/
structure Request where
  method : String
  /-- Path segments (the path split on `/`, empty segments dropped except
  a trailing one, which Express's router treats as part of the pattern). -/
  segments : List String
  /-- The raw request path, echoed by the 404 fallback (`req.path`). -/
  path : String
  protocol : String
  host : String
  query : List (String × JVal)
  body : JVal

/-- `req.query.k`. -/
def Request.queryGet (req : Request) (k : String) : JVal :=
  (req.query.lookup k).getD .undefined

/-- `req.body.k`. -/
def Request.bodyGet (req : Request) (k : String) : JVal :=
  getField req.body k

/-- A TwiML verb as built by `twilio.twiml.VoiceResponse` /
`MessagingResponse` in the handlers. -/
inductive TwimlVerb where
  /-- `twiml.dial({callerId, answerOnBridge, timeout})` followed by
  `dial.number(n)` for each listed number. -/
  | dial (callerId : String) (answerOnBridge : Bool) (timeout : Nat)
      (numbers : List JVal) : TwimlVerb
  /-- `twiml.say({voice, language}, text)`. -/
  | say (voice : String) (language : String) (text : String) : TwimlVerb
  /-- `twiml.message(text)` of a `MessagingResponse`. -/
  | message (text : String) : TwimlVerb

/-- A response body: JSON (`res.json`), rendered TwiML markup
(`res.type('text/xml'); res.send(...)`), or none (`res.sendStatus`). -/
inductive ResBody where
  | json (v : JVal) : ResBody
  | xml (verbs : List TwimlVerb) : ResBody
  | empty : ResBody

/-- An HTTP response. -/
structure Response where
  status : Nat
  contentType : String
  body : ResBody

/-- A provider-visible side effect: one call to the Twilio client. -/
inductive Effect where
  /-- `twilioClient.messages.create({body, from, to})`. -/
  | createMessage (body : JVal) («from» : String) («to» : JVal) : Effect
  /-- `twilioClient.calls.create({url, to, from, statusCallback,
  statusCallbackEvent})`. -/
  | createCall (url : String) («to» : JVal) («from» : String)
      (statusCallback : String) (statusCallbackEvent : List String) : Effect
  /-- `twilioClient.calls(sid).update({status})`. -/
  | updateCall (sid : String) (status : String) : Effect

/-- Build a JSON response (Express `res.json` defaults to status 200). -/
def jsonRes (status : Nat) (fields : List (String × JVal)) : Response :=
  ⟨status, "application/json", .json (.obj fields)⟩

/-- JavaScript `a || b` on strings, as in `error.message || 'Failed …'`
(an empty message is falsy). -/
def strOr (a b : String) : String :=
  if a = "" then b else a

/-- `Math.floor(100000 + Math.random() * 900000)` for a given value of
`Math.random()`, as a natural number. -/
def otpValue (rand : ℚ) : Nat :=
  (Int.floor ((100000 : ℚ) + rand * 900000)).toNat

/-- `GET /` health check. -/
def healthRes (ext : Ext) : Response :=
  jsonRes 200
    [("status", .str "Torrz Real VoIP Backend Running!"),
     ("timestamp", .str ext.isoNow),
     ("endpoints", .obj
       [("voiceToken", .str "/api/voice/token"),
        ("initiateCall", .str "/api/calls/initiate"),
        ("endCall", .str "/api/calls/end/:callSid"),
        ("sendSMS", .str "/api/messages/send"),
        ("sendOTP", .str "/api/otp/send")])]

/-- `GET /api/voice/token`: mints an access token for
`req.query.identity || 'user_' + Date.now()`; the signing outcome
(`toJwt`, covered by the handler's `try`) is `ext.tokenSign`. -/
def tokenHandler (ext : Ext) (req : Request) : Response :=
  let identity := jsOr (req.queryGet "identity")
      (.str ("user_" ++ natToDecString ext.nowMs))
  match ext.tokenSign with
  | .ok token =>
      jsonRes 200
        [("success", .bool true), ("token", .str token),
         ("identity", identity), ("expiresIn", .num 3600)]
  | .error e =>
      jsonRes 500
        [("success", .bool false),
         ("message", .str (strOr e "Failed to generate token")),
         ("error", .str e)]

/-- `POST /api/otp/send`. -/
def otpSendHandler (env : Env) (ext : Ext) (req : Request) :
    Response × List Effect :=
  let phoneNumber := req.bodyGet "phoneNumber"
  if truthy phoneNumber = false then
    (jsonRes 400
      [("success", .bool false),
       ("message", .str "Phone number is required")], [])
  else
    let otp := natToDecString (otpValue ext.rand)
    let eff := Effect.createMessage
      (.str ("Your TORRZ verification code is: " ++ otp ++
        ". Valid for 10 minutes."))
      env.phoneNumber phoneNumber
    match ext.messageCreate with
    | .ok sid =>
        (jsonRes 200
          [("success", .bool true),
           ("message", .str "OTP sent successfully"),
           ("requestId", .str sid), ("otp", .str otp)], [eff])
    | .error e =>
        (jsonRes 500
          [("success", .bool false),
           ("message", .str (strOr e "Failed to send OTP"))], [eff])

/-- `POST /api/otp/verify`: accepts when `code.length === 6`; never
contacts the provider. -/
def verifyHandler (ext : Ext) (req : Request) : Response :=
  let phoneNumber := req.bodyGet "phoneNumber"
  let code := req.bodyGet "code"
  if truthy phoneNumber = false || truthy code = false then
    jsonRes 400
      [("success", .bool false),
       ("message", .str "Phone number and code are required")]
  else if strictEqSix (jsGetLength code) then
    jsonRes 200
      [("success", .bool true),
       ("message", .str "Phone number verified successfully"),
       ("token", .str ("auth_token_" ++ natToDecString ext.nowMs)),
       ("userPhoneNumber", phoneNumber)]
  else
    jsonRes 400
      [("success", .bool false),
       ("message", .str "Invalid verification code")]

/-- `POST /api/calls/initiate`: creates the provider call with
`from: process.env.TWILIO_PHONE_NUMBER` (the request's `fromNumber` is
only validated for presence). -/
def initiateHandler (env : Env) (ext : Ext) (req : Request) :
    Response × List Effect :=
  let toNumber := req.bodyGet "toNumber"
  let fromNumber := req.bodyGet "fromNumber"
  if truthy toNumber = false || truthy fromNumber = false then
    (jsonRes 400
      [("success", .bool false),
       ("message", .str "Both toNumber and fromNumber are required")], [])
  else
    let eff := Effect.createCall
      (req.protocol ++ "://" ++ req.host ++ "/api/calls/twiml")
      toNumber env.phoneNumber
      (req.protocol ++ "://" ++ req.host ++ "/api/calls/status")
      ["initiated", "ringing", "answered", "completed"]
    match ext.callCreate with
    | .ok (sid, status) =>
        (jsonRes 200
          [("success", .bool true),
           ("message", .str "Call initiated successfully"),
           ("callSid", .str sid), ("status", .str status)], [eff])
    | .error e =>
        (jsonRes 500
          [("success", .bool false),
           ("message", .str (strOr e "Failed to initiate call")),
           ("error", .str e)], [eff])

/-- `DELETE /api/calls/end/:callSid`: the matched path parameter is the
handler's `callSid`; `!callSid` on a string is true only for `""`. -/
def endCallHandler (ext : Ext) (callSid : String) :
    Response × List Effect :=
  if callSid = "" then
    (jsonRes 400
      [("success", .bool false),
       ("message", .str "Call SID is required")], [])
  else
    let eff := Effect.updateCall callSid "completed"
    match ext.callUpdate with
    | .ok (sid, status) =>
        (jsonRes 200
          [("success", .bool true),
           ("message", .str "Call ended successfully"),
           ("callSid", .str sid), ("status", .str status)], [eff])
    | .error e =>
        (jsonRes 500
          [("success", .bool false),
           ("message", .str (strOr e "Failed to end call")),
           ("error", .str e)], [eff])

/-- `POST /api/calls/twiml`: renders the call-control markup.  The
destination is `req.query.To || req.body.To`; if truthy, one `Dial`
verb with `callerId` the configured number, `answerOnBridge: true`,
`timeout: 30`, containing one `Number` noun; otherwise one `Say`
apology. -/
def twimlHandler (env : Env) (req : Request) : Response :=
  let toNumber := jsOr (req.queryGet "To") (req.bodyGet "To")
  let verbs :=
    if truthy toNumber then
      [TwimlVerb.dial env.phoneNumber true 30 [toNumber]]
    else
      [TwimlVerb.say "alice" "en-US" "No destination number was provided."]
  ⟨200, "text/xml", .xml verbs⟩

/-- `POST /api/calls/status`: logs and acknowledges
(`res.sendStatus(200)`). -/
def statusRes : Response :=
  ⟨200, "text/plain", .empty⟩

/-- `POST /api/messages/send`. -/
def messagesSendHandler (env : Env) (ext : Ext) (req : Request) :
    Response × List Effect :=
  let toNumber := req.bodyGet "toNumber"
  let message := req.bodyGet "message"
  if truthy toNumber = false || truthy message = false then
    (jsonRes 400
      [("success", .bool false),
       ("message", .str "toNumber and message are required")], [])
  else
    let eff := Effect.createMessage message env.phoneNumber toNumber
    match ext.messageCreate with
    | .ok sid =>
        (jsonRes 200
          [("success", .bool true),
           ("message", .str "SMS sent successfully"),
           ("messageSid", .str sid)], [eff])
    | .error e =>
        (jsonRes 500
          [("success", .bool false),
           ("message", .str (strOr e "Failed to send SMS"))], [eff])

/-- `POST /api/messages/receive`: fixed-template auto-reply echoing the
received body. -/
def messagesReceiveRes (req : Request) : Response :=
  ⟨200, "text/xml",
    .xml [TwimlVerb.message
      ("Thank you for your message! We received: " ++
        jsToString (req.bodyGet "Body"))]⟩

/-- The 404 fallback registered after every route. -/
def notFoundRes (req : Request) : Response :=
  jsonRes 404
    [("success", .bool false),
     ("message", .str "Endpoint not found"),
     ("path", .str req.path)]

/-- The registered routes. -/
inductive RouteId where
  | health | voiceToken | otpSend | otpVerify | callsInitiate
  | callsEnd (callSid : String) | callsTwiml | callsStatus
  | messagesSend | messagesReceive

/-- Express routing: which registered route, if any, matches a request.
`:callSid` (path-to-regexp) requires a non-empty path segment, so
`DELETE /api/calls/end` and `DELETE /api/calls/end/` match nothing. -/
def routeOf (req : Request) : Option RouteId :=
  match req.method, req.segments with
  | "GET", [] => some .health
  | "GET", ["api", "voice", "token"] => some .voiceToken
  | "POST", ["api", "otp", "send"] => some .otpSend
  | "POST", ["api", "otp", "verify"] => some .otpVerify
  | "POST", ["api", "calls", "initiate"] => some .callsInitiate
  | "DELETE", ["api", "calls", "end", sid] =>
      if sid = "" then none else some (.callsEnd sid)
  | "POST", ["api", "calls", "twiml"] => some .callsTwiml
  | "POST", ["api", "calls", "status"] => some .callsStatus
  | "POST", ["api", "messages", "send"] => some .messagesSend
  | "POST", ["api", "messages", "receive"] => some .messagesReceive
  | _, _ => none

/-- The whole application: route, dispatch, or fall through to the 404
handler.  Returns the response and the provider calls made. -/
def app (env : Env) (ext : Ext) (req : Request) :
    Response × List Effect :=
  match routeOf req with
  | some .health => (healthRes ext, [])
  | some .voiceToken => (tokenHandler ext req, [])
  | some .otpSend => otpSendHandler env ext req
  | some .otpVerify => (verifyHandler ext req, [])
  | some .callsInitiate => initiateHandler env ext req
  | some (.callsEnd sid) => endCallHandler ext sid
  | some .callsTwiml => (twimlHandler env req, [])
  | some .callsStatus => (statusRes, [])
  | some .messagesSend => messagesSendHandler env ext req
  | some .messagesReceive => (messagesReceiveRes req, [])
  | none => (notFoundRes req, [])

/-- The server's cross-request state.  The module has no mutable
top-level binding (every `const` is set once at startup and only read),
so the state carried from one request to the next is trivial. -/
def ServerState : Type := Unit

/-- Process a sequence of requests (each with its external inputs) in
order, threading the (trivial) server state. -/
def serverRun (env : Env) : List (Request × Ext) → List (Response × List Effect)
  | [] => []
  | (req, ext) :: rest => app env ext req :: serverRun env rest

/-! ## Observers and fixtures used by the statements -/

/-- Is the verb a `Dial` (bridging) instruction? -/
def isDialVerb : TwimlVerb → Bool
  | .dial _ _ _ _ => true
  | _ => false

/-- Is the verb a `Say` (spoken) instruction? -/
def isSayVerb : TwimlVerb → Bool
  | .say _ _ _ => true
  | _ => false

/-- The list of TwiML verbs of the markup rendered by the twiml
endpoint for a request. -/
def twimlVerbs (env : Env) (req : Request) : List TwimlVerb :=
  match (twimlHandler env req).body with
  | .xml verbs => verbs
  | _ => []

/-- Read a field of a JSON response body. -/
def Response.jsonField (r : Response) (k : String) : JVal :=
  match r.body with
  | .json v => getField v k
  | _ => .undefined

/-- Replace (shadow) one field of the request body, leaving every other
observable field access unchanged. -/
def setBodyField (req : Request) (k : String) (v : JVal) : Request :=
  { req with
    body := .obj ((k, v) ::
      (match req.body with | .obj fields => fields | _ => [])) }

/-- The numeric value denoted by a string of decimal digits. -/
def decValue (s : String) : Nat :=
  s.data.foldl (fun a c => 10 * a + (c.toNat - 48)) 0

/-- A fixed environment for concrete instances. -/
def env0 : Env :=
  ⟨"AC0", "auth0", "SK0", "secret0", "AP0", "+15550001111"⟩

/-- Fixed external inputs for concrete instances: epoch clock, random
value 0, every provider operation succeeding. -/
def ext0 : Ext :=
  ⟨0, "1970-01-01T00:00:00.000Z", 0, .ok "jwt0", .ok "SM0",
    .ok ("CA0", "queued"), .ok ("CA0", "completed")⟩

/-- A request template. -/
def baseReq : Request :=
  ⟨"GET", [], "/", "https", "example.com", [], .obj []⟩

/-! ## Decimal strings of six-digit numbers -/

theorem digitChar_isDigit : ∀ d : Nat, d < 10 →
    (Nat.digitChar d).isDigit = true := by decide

theorem digitChar_toNat : ∀ d : Nat, d < 10 →
    (Nat.digitChar d).toNat - 48 = d := by decide

theorem foldl_digitChar_reverse (l : List Nat) (hl : ∀ d ∈ l, d < 10) :
    ((l.map Nat.digitChar).reverse).foldl
      (fun a c => 10 * a + (c.toNat - 48)) 0 = Nat.ofDigits 10 l := by
  induction l with
  | nil => simp [Nat.ofDigits]
  | cons d l ih =>
      have hl' : ∀ x ∈ l, x < 10 :=
        fun x hx => hl x (List.mem_cons_of_mem _ hx)
      simp only [List.map_cons, List.reverse_cons, List.foldl_append,
        List.foldl_cons, List.foldl_nil]
      rw [ih hl', digitChar_toNat d (hl d (List.mem_cons_self _ _)),
        Nat.ofDigits_cons]
      ring

theorem natToDecString_decValue (n : Nat) :
    decValue (natToDecString n) = n := by
  unfold natToDecString decValue
  by_cases h : n = 0
  · subst h; decide
  · simp only [h, if_false]
    have := foldl_digitChar_reverse (Nat.digits 10 n)
      (fun d hd => Nat.digits_lt_base (by norm_num) hd)
    simpa [Nat.ofDigits_digits] using this

theorem natToDecString_length_six (n : Nat)
    (h1 : 100000 ≤ n) (h2 : n ≤ 999999) :
    (natToDecString n).length = 6 := by
  have hn : n ≠ 0 := by omega
  unfold natToDecString
  simp only [hn, if_false]
  have hd : (Nat.digits 10 n).length = Nat.log 10 n + 1 :=
    Nat.digits_len 10 n (by norm_num) hn
  have hlog : Nat.log 10 n = 5 :=
    Nat.log_eq_of_pow_le_of_lt_pow (by norm_num; omega) (by norm_num; omega)
  simp [String.length, hd, hlog]

theorem natToDecString_all_digits (n : Nat) :
    ∀ c ∈ (natToDecString n).data, c.isDigit = true := by
  unfold natToDecString
  by_cases h : n = 0
  · subst h; decide
  · simp only [h, if_false]
    intro c hc
    rw [List.mem_reverse, List.mem_map] at hc
    obtain ⟨d, hd, rfl⟩ := hc
    exact digitChar_isDigit d (Nat.digits_lt_base (by norm_num) hd)

theorem otpValue_bounds (q : ℚ) (h0 : 0 ≤ q) (h1 : q < 1) :
    100000 ≤ otpValue q ∧ otpValue q ≤ 999999 := by
  unfold otpValue
  have hlo : (100000 : ℤ) ≤ ⌊(100000 : ℚ) + q * 900000⌋ := by
    rw [Int.le_floor]
    have : (0 : ℚ) ≤ q * 900000 := mul_nonneg h0 (by norm_num)
    push_cast
    linarith
  have hhi : ⌊(100000 : ℚ) + q * 900000⌋ < 1000000 := by
    rw [Int.floor_lt]
    have : q * 900000 < 1 * 900000 :=
      mul_lt_mul_of_pos_right h1 (by norm_num)
    push_cast
    linarith
  omega

/-! ## Dispatch lemmas: how `app` reduces once the route is known -/

theorem app_eq_of_otpSend (env : Env) (ext : Ext) (req : Request)
    (h : routeOf req = some .otpSend) :
    app env ext req = otpSendHandler env ext req := by
  unfold app; rw [h]

theorem app_eq_of_otpVerify (env : Env) (ext : Ext) (req : Request)
    (h : routeOf req = some .otpVerify) :
    app env ext req = (verifyHandler ext req, []) := by
  unfold app; rw [h]

theorem app_eq_of_callsInitiate (env : Env) (ext : Ext) (req : Request)
    (h : routeOf req = some .callsInitiate) :
    app env ext req = initiateHandler env ext req := by
  unfold app; rw [h]

theorem app_eq_of_messagesSend (env : Env) (ext : Ext) (req : Request)
    (h : routeOf req = some .messagesSend) :
    app env ext req = messagesSendHandler env ext req := by
  unfold app; rw [h]

theorem app_eq_of_voiceToken (env : Env) (ext : Ext) (req : Request)
    (h : routeOf req = some .voiceToken) :
    app env ext req = (tokenHandler ext req, []) := by
  unfold app; rw [h]

theorem app_eq_of_none (env : Env) (ext : Ext) (req : Request)
    (h : routeOf req = none) :
    app env ext req = (notFoundRes req, []) := by
  unfold app; rw [h]

/-! ## The claims -/

/-- C1: for every request to the call-control markup endpoint, if the
destination number (query `To` first, then body `To`) is truthy, the
markup holds exactly one `Dial` with `answerOnBridge`, timeout 30 and
the configured number as caller ID, targeting that destination, and no
`Say` apology; if not, exactly one `Say` apology and no `Dial`.
Truthiness of the destination is the sole discriminator, and the
response is always 200 `text/xml`. -/
theorem twiml_markup_by_destination (env : Env) (req : Request) :
    (twimlHandler env req).status = 200 ∧
    (twimlHandler env req).contentType = "text/xml" ∧
    (truthy (jsOr (req.queryGet "To") (req.bodyGet "To")) = true →
      twimlVerbs env req =
        [.dial env.phoneNumber true 30
          [jsOr (req.queryGet "To") (req.bodyGet "To")]] ∧
      (twimlVerbs env req).countP isDialVerb = 1 ∧
      (twimlVerbs env req).countP isSayVerb = 0) ∧
    (truthy (jsOr (req.queryGet "To") (req.bodyGet "To")) = false →
      twimlVerbs env req =
        [.say "alice" "en-US" "No destination number was provided."] ∧
      (twimlVerbs env req).countP isSayVerb = 1 ∧
      (twimlVerbs env req).countP isDialVerb = 0) := by
  refine ⟨rfl, rfl, fun h => ?_, fun h => ?_⟩ <;>
    simp [twimlVerbs, twimlHandler, h, isDialVerb, isSayVerb]

/-- Fixture: a twiml request with query parameter `To=+15551234567`. -/
def reqTwimlTo : Request :=
  { baseReq with
    method := "POST", segments := ["api", "calls", "twiml"],
    path := "/api/calls/twiml",
    query := [("To", .str "+15551234567")] }

/-- Concrete instance of C1's theorem at `reqTwimlTo`. -/
theorem twiml_markup_by_destination_witness :
    truthy (jsOr (reqTwimlTo.queryGet "To") (reqTwimlTo.bodyGet "To"))
        = true ∧
    twimlVerbs env0 reqTwimlTo =
      [.dial "+15550001111" true 30 [.str "+15551234567"]] ∧
    (twimlVerbs env0 reqTwimlTo).countP isSayVerb = 0 :=
  have h := (twiml_markup_by_destination env0 reqTwimlTo).2.2.1 rfl
  ⟨rfl, h.1, h.2.2⟩

/-- C2: an OTP verification with truthy `phoneNumber` and `code` is
accepted (200 with `success:true`, a token and `userPhoneNumber` echoing
the submitted number) exactly when `code.length === 6`, and rejected
with 400 and `success:false` otherwise; the provider is never contacted,
and acceptance is a function of `code.length` alone (the right-hand side
of the iff mentions nothing but `jsGetLength` of the code — no digit
content, no previously issued code). -/
theorem otp_verify_accepts_iff_length_six (env : Env) (ext : Ext)
    (req : Request) (hroute : routeOf req = some .otpVerify)
    (hp : truthy (req.bodyGet "phoneNumber") = true)
    (hc : truthy (req.bodyGet "code") = true) :
    (app env ext req).2 = [] ∧
    ((app env ext req).1.status = 200 ↔
      strictEqSix (jsGetLength (req.bodyGet "code")) = true) ∧
    (strictEqSix (jsGetLength (req.bodyGet "code")) = true →
      (app env ext req).1 = jsonRes 200
        [("success", .bool true),
         ("message", .str "Phone number verified successfully"),
         ("token", .str ("auth_token_" ++ natToDecString ext.nowMs)),
         ("userPhoneNumber", req.bodyGet "phoneNumber")]) ∧
    (strictEqSix (jsGetLength (req.bodyGet "code")) = false →
      (app env ext req).1 = jsonRes 400
        [("success", .bool false),
         ("message", .str "Invalid verification code")]) := by
  rw [app_eq_of_otpVerify env ext req hroute]
  unfold verifyHandler
  cases hlen : strictEqSix (jsGetLength (req.bodyGet "code")) <;>
    simp [hp, hc, hlen, jsonRes]

/-- Fixture: a well-formed OTP verification request. -/
def reqVerifyOk : Request :=
  { baseReq with
    method := "POST", segments := ["api", "otp", "verify"],
    path := "/api/otp/verify",
    body := .obj [("phoneNumber", .str "+15551234567"),
                  ("code", .str "123456")] }

/-- Concrete instance of C2's theorem at `reqVerifyOk`. -/
theorem otp_verify_accepts_iff_length_six_witness :
    routeOf reqVerifyOk = some .otpVerify ∧
    truthy (reqVerifyOk.bodyGet "phoneNumber") = true ∧
    truthy (reqVerifyOk.bodyGet "code") = true ∧
    strictEqSix (jsGetLength (reqVerifyOk.bodyGet "code")) = true ∧
    (app env0 ext0 reqVerifyOk).1 = jsonRes 200
      [("success", .bool true),
       ("message", .str "Phone number verified successfully"),
       ("token", .str ("auth_token_" ++ natToDecString ext0.nowMs)),
       ("userPhoneNumber", reqVerifyOk.bodyGet "phoneNumber")] :=
  ⟨rfl, rfl, rfl, rfl,
    (otp_verify_accepts_iff_length_six env0 ext0 reqVerifyOk
      rfl rfl rfl).2.2.1 rfl⟩

/-- C3: on each endpoint with required body fields (OTP send, OTP
verify, call initiation, SMS send), a missing required field yields
status 400 with `success:false` and no provider call. -/
theorem missing_required_field_400 (env : Env) (ext : Ext)
    (req : Request) :
    (routeOf req = some .otpSend →
      req.bodyGet "phoneNumber" = .undefined →
      (app env ext req).1.status = 400 ∧
      (app env ext req).1.jsonField "success" = .bool false ∧
      (app env ext req).2 = []) ∧
    (routeOf req = some .otpVerify →
      (req.bodyGet "phoneNumber" = .undefined ∨
        req.bodyGet "code" = .undefined) →
      (app env ext req).1.status = 400 ∧
      (app env ext req).1.jsonField "success" = .bool false ∧
      (app env ext req).2 = []) ∧
    (routeOf req = some .callsInitiate →
      (req.bodyGet "toNumber" = .undefined ∨
        req.bodyGet "fromNumber" = .undefined) →
      (app env ext req).1.status = 400 ∧
      (app env ext req).1.jsonField "success" = .bool false ∧
      (app env ext req).2 = []) ∧
    (routeOf req = some .messagesSend →
      (req.bodyGet "toNumber" = .undefined ∨
        req.bodyGet "message" = .undefined) →
      (app env ext req).1.status = 400 ∧
      (app env ext req).1.jsonField "success" = .bool false ∧
      (app env ext req).2 = []) := by
  refine ⟨fun h hm => ?_, fun h hm => ?_, fun h hm => ?_, fun h hm => ?_⟩
  · rw [app_eq_of_otpSend env ext req h]
    simp [otpSendHandler, hm, truthy, jsonRes, Response.jsonField, getField]
  · rw [app_eq_of_otpVerify env ext req h]
    rcases hm with hm | hm <;>
      simp [verifyHandler, hm, truthy, jsonRes, Response.jsonField, getField]
  · rw [app_eq_of_callsInitiate env ext req h]
    rcases hm with hm | hm <;>
      simp [initiateHandler, hm, truthy, jsonRes, Response.jsonField, getField]
  · rw [app_eq_of_messagesSend env ext req h]
    rcases hm with hm | hm <;>
      simp [messagesSendHandler, hm, truthy, jsonRes, Response.jsonField,
        getField]

/-- Fixtures: one request per endpoint with a required field missing. -/
def reqOtpSendMissing : Request :=
  { baseReq with
    method := "POST", segments := ["api", "otp", "send"],
    path := "/api/otp/send", body := .obj [] }

def reqVerifyMissing : Request :=
  { baseReq with
    method := "POST", segments := ["api", "otp", "verify"],
    path := "/api/otp/verify",
    body := .obj [("phoneNumber", .str "+15551234567")] }

def reqInitiateMissing : Request :=
  { baseReq with
    method := "POST", segments := ["api", "calls", "initiate"],
    path := "/api/calls/initiate", body := .obj [] }

def reqMessagesMissing : Request :=
  { baseReq with
    method := "POST", segments := ["api", "messages", "send"],
    path := "/api/messages/send",
    body := .obj [("toNumber", .str "+15551234567")] }

/-- Concrete instances of C3's theorem, one per endpoint. -/
theorem missing_required_field_400_witness :
    ((app env0 ext0 reqOtpSendMissing).1.status = 400 ∧
      (app env0 ext0 reqOtpSendMissing).1.jsonField "success" = .bool false ∧
      (app env0 ext0 reqOtpSendMissing).2 = []) ∧
    ((app env0 ext0 reqVerifyMissing).1.status = 400 ∧
      (app env0 ext0 reqVerifyMissing).1.jsonField "success" = .bool false ∧
      (app env0 ext0 reqVerifyMissing).2 = []) ∧
    ((app env0 ext0 reqInitiateMissing).1.status = 400 ∧
      (app env0 ext0 reqInitiateMissing).1.jsonField "success" = .bool false ∧
      (app env0 ext0 reqInitiateMissing).2 = []) ∧
    ((app env0 ext0 reqMessagesMissing).1.status = 400 ∧
      (app env0 ext0 reqMessagesMissing).1.jsonField "success" = .bool false ∧
      (app env0 ext0 reqMessagesMissing).2 = []) :=
  ⟨(missing_required_field_400 env0 ext0 reqOtpSendMissing).1 rfl rfl,
   (missing_required_field_400 env0 ext0 reqVerifyMissing).2.1 rfl
     (Or.inr rfl),
   (missing_required_field_400 env0 ext0 reqInitiateMissing).2.2.1 rfl
     (Or.inl rfl),
   (missing_required_field_400 env0 ext0 reqMessagesMissing).2.2.2 rfl
     (Or.inr rfl)⟩

/-- Lemma: overriding one body field leaves routing unchanged. -/
theorem routeOf_setBodyField (req : Request) (k : String) (v : JVal) :
    routeOf (setBodyField req k v) = routeOf req := rfl

/-- Lemma: reading the overridden body field yields the new value. -/
theorem bodyGet_setBodyField_eq (req : Request) (k : String) (v : JVal) :
    (setBodyField req k v).bodyGet k = v := by
  unfold setBodyField Request.bodyGet getField
  simp [List.lookup]

/-- Lemma: reading any other body field is unaffected. -/
theorem bodyGet_setBodyField_ne (req : Request) (k k' : String)
    (v : JVal) (h : k' ≠ k) :
    (setBodyField req k v).bodyGet k' = req.bodyGet k' := by
  have hb : (k' == k) = false := beq_eq_false_iff_ne.mpr h
  unfold setBodyField Request.bodyGet getField
  cases req.body <;> simp [List.lookup, hb]

/-- Fixture: a DELETE request to `/api/calls/end` with no callSid
segment. -/
def reqEndNoSid : Request :=
  { baseReq with
    method := "DELETE", segments := ["api", "calls", "end"],
    path := "/api/calls/end" }

/-- C4 counterexample: with the callSid path segment absent, the
response is the 404 fallback, not the claimed ValidationError 400
(Express's `:callSid` pattern never matches an absent segment, so the
handler — and its 400 branch — is not reached). -/
theorem end_call_absent_sid_counterexample :
    (app env0 ext0 reqEndNoSid).1.status = 404 ∧
    (app env0 ext0 reqEndNoSid).1.status ≠ 400 ∧
    (app env0 ext0 reqEndNoSid).1.jsonField "success" = .bool false ∧
    (app env0 ext0 reqEndNoSid).2 = [] :=
  ⟨rfl, by decide, rfl, rfl⟩

/-- C4 (amended): a DELETE request to `/api/calls/end` whose callSid
segment is absent (or empty) matches no route, so the response is the
404 fallback with `success:false` and no provider call is made; and for
any callSid the route can actually bind (a non-empty segment), the
handler never answers 400, so the ValidationError case is
unreachable. -/
theorem end_call_absent_sid_404 (env : Env) (ext : Ext) (req : Request)
    (hm : req.method = "DELETE")
    (hs : req.segments = ["api", "calls", "end"] ∨
      req.segments = ["api", "calls", "end", ""]) :
    (app env ext req).1.status = 404 ∧
    (app env ext req).1 = notFoundRes req ∧
    (app env ext req).2 = [] ∧
    (∀ sid : String, sid ≠ "" →
      (endCallHandler ext sid).1.status ≠ 400) := by
  have hnone : routeOf req = none := by
    obtain ⟨m, segs, p, pr, ho, qu, bo⟩ := req
    simp only at hm hs
    subst hm
    rcases hs with hs | hs <;> subst hs <;> rfl
  rw [app_eq_of_none env ext req hnone]
  refine ⟨rfl, rfl, rfl, fun sid hsid => ?_⟩
  unfold endCallHandler
  rcases hcu : ext.callUpdate with e | ⟨sid2, st⟩ <;>
    simp [hsid, hcu, jsonRes]

/-- Concrete instance of the amended C4 theorem. -/
theorem end_call_absent_sid_404_witness :
    reqEndNoSid.method = "DELETE" ∧
    reqEndNoSid.segments = ["api", "calls", "end"] ∧
    (app env0 ext0 reqEndNoSid).1 = notFoundRes reqEndNoSid ∧
    (endCallHandler ext0 "CA123").1.status ≠ 400 :=
  have h := end_call_absent_sid_404 env0 ext0 reqEndNoSid rfl (Or.inl rfl)
  ⟨rfl, rfl, h.2.1, h.2.2.2 "CA123" (by decide)⟩

/-- Fixture: a well-formed call-initiation request. -/
def reqInitiateOk : Request :=
  { baseReq with
    method := "POST", segments := ["api", "calls", "initiate"],
    path := "/api/calls/initiate",
    body := .obj [("toNumber", .str "+15557654321"),
                  ("fromNumber", .str "client:alice")] }

/-- C5: a validated call initiation creates exactly one provider call
whose `from` is the configured system phone number; the caller-supplied
`fromNumber` has no effect on the provider call (overriding it with any
other truthy value leaves the provider-visible effects unchanged). -/
theorem initiate_caller_id_is_system_number (env : Env) (ext : Ext)
    (req : Request) (hroute : routeOf req = some .callsInitiate)
    (ht : truthy (req.bodyGet "toNumber") = true)
    (hf : truthy (req.bodyGet "fromNumber") = true) :
    (app env ext req).2 =
      [Effect.createCall
        (req.protocol ++ "://" ++ req.host ++ "/api/calls/twiml")
        (req.bodyGet "toNumber") env.phoneNumber
        (req.protocol ++ "://" ++ req.host ++ "/api/calls/status")
        ["initiated", "ringing", "answered", "completed"]] ∧
    (∀ v : JVal, truthy v = true →
      (app env ext (setBodyField req "fromNumber" v)).2 =
        (app env ext req).2) := by
  have happ := app_eq_of_callsInitiate env ext req hroute
  have key : ∀ w : JVal, truthy w = true →
      (app env ext (setBodyField req "fromNumber" w)).2 =
      [Effect.createCall
        (req.protocol ++ "://" ++ req.host ++ "/api/calls/twiml")
        (req.bodyGet "toNumber") env.phoneNumber
        (req.protocol ++ "://" ++ req.host ++ "/api/calls/status")
        ["initiated", "ringing", "answered", "completed"]] := by
    intro w hw
    have happ2 := app_eq_of_callsInitiate env ext
      (setBodyField req "fromNumber" w)
      (by rw [routeOf_setBodyField]; exact hroute)
    rw [happ2]
    unfold initiateHandler
    rw [bodyGet_setBodyField_ne req "fromNumber" "toNumber" w (by decide),
      bodyGet_setBodyField_eq]
    rcases hcc : ext.callCreate with e | ⟨sid, st⟩ <;>
      simp [ht, hw, hcc, setBodyField]
  have base : (app env ext req).2 =
      [Effect.createCall
        (req.protocol ++ "://" ++ req.host ++ "/api/calls/twiml")
        (req.bodyGet "toNumber") env.phoneNumber
        (req.protocol ++ "://" ++ req.host ++ "/api/calls/status")
        ["initiated", "ringing", "answered", "completed"]] := by
    rw [happ]
    unfold initiateHandler
    rcases hcc : ext.callCreate with e | ⟨sid, st⟩ <;>
      simp [ht, hf, hcc]
  exact ⟨base, fun v hv => (key v hv).trans base.symm⟩

/-- Concrete instance of C5's theorem at `reqInitiateOk`. -/
theorem initiate_caller_id_is_system_number_witness :
    (app env0 ext0 reqInitiateOk).2 =
      [Effect.createCall "https://example.com/api/calls/twiml"
        (.str "+15557654321") "+15550001111"
        "https://example.com/api/calls/status"
        ["initiated", "ringing", "answered", "completed"]] ∧
    (app env0 ext0
        (setBodyField reqInitiateOk "fromNumber" (.str "+19998887777"))).2 =
      (app env0 ext0 reqInitiateOk).2 :=
  have h := initiate_caller_id_is_system_number env0 ext0 reqInitiateOk
    rfl rfl rfl
  ⟨h.1, h.2 (.str "+19998887777") rfl⟩

/-- Fixture: a well-formed OTP send request. -/
def reqOtpSendOk : Request :=
  { baseReq with
    method := "POST", segments := ["api", "otp", "send"],
    path := "/api/otp/send",
    body := .obj [("phoneNumber", .str "+15551234567")] }

/-- C6: for every value of the random source (`Math.random()`, i.e. any
rational in `[0, 1)`), the generated code is the decimal string of a
number in `[100000, 999999]`: it has exactly 6 characters, all ASCII
digits, and re-reading it as a decimal number returns that value; the
same code string is embedded in the SMS sent to the provider and, when
the provider succeeds, returned in the response's `otp` field. -/
theorem otp_send_code_six_digits (env : Env) (ext : Ext) (req : Request)
    (hroute : routeOf req = some .otpSend)
    (h0 : 0 ≤ ext.rand) (h1 : ext.rand < 1)
    (hp : truthy (req.bodyGet "phoneNumber") = true) :
    100000 ≤ otpValue ext.rand ∧ otpValue ext.rand ≤ 999999 ∧
    (natToDecString (otpValue ext.rand)).length = 6 ∧
    (∀ c ∈ (natToDecString (otpValue ext.rand)).data,
      c.isDigit = true) ∧
    decValue (natToDecString (otpValue ext.rand)) = otpValue ext.rand ∧
    (app env ext req).2 =
      [Effect.createMessage
        (.str ("Your TORRZ verification code is: " ++
          natToDecString (otpValue ext.rand) ++ ". Valid for 10 minutes."))
        env.phoneNumber (req.bodyGet "phoneNumber")] ∧
    (∀ sid : String, ext.messageCreate = .ok sid →
      (app env ext req).1.jsonField "otp" =
        .str (natToDecString (otpValue ext.rand))) := by
  obtain ⟨hlo, hhi⟩ := otpValue_bounds ext.rand h0 h1
  refine ⟨hlo, hhi, natToDecString_length_six _ hlo hhi,
    natToDecString_all_digits _, natToDecString_decValue _, ?_, ?_⟩
  · rw [app_eq_of_otpSend env ext req hroute]
    unfold otpSendHandler
    rcases hmc : ext.messageCreate with e | sid <;> simp [hp, hmc]
  · intro sid hsid
    rw [app_eq_of_otpSend env ext req hroute]
    unfold otpSendHandler
    simp [hp, hsid, jsonRes, Response.jsonField, getField, List.lookup]

/-- Fixture: external inputs with `Math.random()` returning 1/2. -/
def extHalf : Ext := { ext0 with rand := 1/2 }

/-- Concrete instance of C6's theorem at random value 1/2. -/
theorem otp_send_code_six_digits_witness :
    (0 : ℚ) ≤ extHalf.rand ∧ extHalf.rand < 1 ∧
    (natToDecString (otpValue extHalf.rand)).length = 6 ∧
    100000 ≤ otpValue extHalf.rand ∧
    (app env0 extHalf reqOtpSendOk).2 =
      [Effect.createMessage
        (.str ("Your TORRZ verification code is: " ++
          natToDecString (otpValue extHalf.rand) ++
          ". Valid for 10 minutes."))
        env0.phoneNumber (reqOtpSendOk.bodyGet "phoneNumber")] :=
  have hr : extHalf.rand = (1 : ℚ)/2 := rfl
  have h0 : (0 : ℚ) ≤ extHalf.rand := by rw [hr]; norm_num
  have h1 : extHalf.rand < 1 := by rw [hr]; norm_num
  have h := otp_send_code_six_digits env0 extHalf reqOtpSendOk
    rfl h0 h1 rfl
  ⟨h0, h1, h.2.2.1, h.1, h.2.2.2.2.2.1⟩

/-- Fixture: a token request with `identity=alice`. -/
def reqTokenAlice : Request :=
  { baseReq with
    method := "GET", segments := ["api", "voice", "token"],
    path := "/api/voice/token",
    query := [("identity", .str "alice")] }

/-- Fixture: a token request whose `identity` query parameter is
present but equal to the empty string (`?identity=`). -/
def reqTokenEmpty : Request :=
  { baseReq with
    method := "GET", segments := ["api", "voice", "token"],
    path := "/api/voice/token",
    query := [("identity", .str "")] }

/-- C7 counterexample: with the `identity` query parameter present but
empty, the handler does not echo the supplied identity — `||` treats
the empty string as absent and synthesizes `user_<timestamp>`
instead. -/
theorem voice_token_counterexample :
    reqTokenEmpty.query.lookup "identity" = some (.str "") ∧
    (app env0 ext0 reqTokenEmpty).1.status = 200 ∧
    (app env0 ext0 reqTokenEmpty).1.jsonField "identity" =
      .str "user_0" ∧
    (app env0 ext0 reqTokenEmpty).1.jsonField "identity" ≠ .str "" := by
  refine ⟨rfl, rfl, rfl, ?_⟩
  intro hc
  rw [show (app env0 ext0 reqTokenEmpty).1.jsonField "identity" =
    .str "user_0" from rfl] at hc
  simp at hc

/-- C7 (amended): every token request whose signing succeeds gets 200
with `success:true`, `expiresIn` exactly 3600 and the signed token; the
returned identity is the caller-supplied `identity` query parameter
when that parameter is truthy (present and non-empty), and
`"user_" + Date.now()` when it is absent or empty. -/
theorem voice_token_response (env : Env) (ext : Ext) (req : Request)
    (hroute : routeOf req = some .voiceToken)
    (tok : String) (hsig : ext.tokenSign = .ok tok) :
    (app env ext req).1.status = 200 ∧
    (app env ext req).1.jsonField "success" = .bool true ∧
    (app env ext req).1.jsonField "expiresIn" = .num 3600 ∧
    (app env ext req).1.jsonField "token" = .str tok ∧
    (truthy (req.queryGet "identity") = true →
      (app env ext req).1.jsonField "identity" =
        req.queryGet "identity") ∧
    (truthy (req.queryGet "identity") = false →
      (app env ext req).1.jsonField "identity" =
        .str ("user_" ++ natToDecString ext.nowMs)) ∧
    (app env ext req).2 = [] := by
  rw [app_eq_of_voiceToken env ext req hroute]
  unfold tokenHandler
  rw [hsig]
  refine ⟨rfl, rfl, rfl, rfl, fun h => ?_, fun h => ?_, rfl⟩ <;>
    simp [jsOr, h, jsonRes, Response.jsonField, getField, List.lookup]

/-- Concrete instance of the amended C7 theorem at `identity=alice`. -/
theorem voice_token_response_witness :
    routeOf reqTokenAlice = some .voiceToken ∧
    ext0.tokenSign = .ok "jwt0" ∧
    truthy (reqTokenAlice.queryGet "identity") = true ∧
    (app env0 ext0 reqTokenAlice).1.status = 200 ∧
    (app env0 ext0 reqTokenAlice).1.jsonField "expiresIn" = .num 3600 ∧
    (app env0 ext0 reqTokenAlice).1.jsonField "identity" =
      .str "alice" :=
  have h := voice_token_response env0 ext0 reqTokenAlice rfl "jwt0" rfl
  ⟨rfl, rfl, rfl, h.1, h.2.2.1, h.2.2.2.2.1 rfl⟩

/-- Fixture: a request matching no registered route. -/
def reqNope : Request :=
  { baseReq with
    method := "GET", segments := ["definitely", "not", "a", "route"],
    path := "/definitely/not/a/route" }

/-- C8: every request matching no registered method-and-path route gets
the 404 fallback: status 404, `success:false`, and a `path` field
echoing the requested path; no provider call is made. -/
theorem unmatched_route_404 (env : Env) (ext : Ext) (req : Request)
    (h : routeOf req = none) :
    (app env ext req).1.status = 404 ∧
    (app env ext req).1.jsonField "success" = .bool false ∧
    (app env ext req).1.jsonField "path" = .str req.path ∧
    (app env ext req).2 = [] := by
  rw [app_eq_of_none env ext req h]
  refine ⟨rfl, rfl, ?_, rfl⟩
  simp [notFoundRes, jsonRes, Response.jsonField, getField, List.lookup]

/-- Concrete instance of C8's theorem at an unregistered path. -/
theorem unmatched_route_404_witness :
    routeOf reqNope = none ∧
    (app env0 ext0 reqNope).1.status = 404 ∧
    (app env0 ext0 reqNope).1.jsonField "path" =
      .str "/definitely/not/a/route" :=
  have h := unmatched_route_404 env0 ext0 reqNope rfl
  ⟨rfl, h.1, h.2.2.1⟩

/-- Lemma: processing a concatenation of request sequences processes
each part independently. -/
theorem serverRun_append (env : Env) (l1 l2 : List (Request × Ext)) :
    serverRun env (l1 ++ l2) = serverRun env l1 ++ serverRun env l2 := by
  induction l1 with
  | nil => rfl
  | cons x l ih =>
      obtain ⟨r, e⟩ := x
      simp [serverRun, ih]

/-- C9: the process holds no cross-request state — the outcome of a
request is a function of that request and its own external inputs
alone, unchanged under replacing the entire preceding request history
by any other; in particular an OTP verification is unaffected by any
earlier OTP send. -/
theorem stateless_cross_request (env : Env)
    (hist hist' : List (Request × Ext)) (req : Request) (ext : Ext) :
    (serverRun env (hist ++ [(req, ext)])).getLast? =
      some (app env ext req) ∧
    (serverRun env (hist ++ [(req, ext)])).getLast? =
      (serverRun env (hist' ++ [(req, ext)])).getLast? ∧
    (∀ sendReq : Request, ∀ sendExt : Ext,
      (serverRun env ([(sendReq, sendExt)] ++ [(req, ext)])).getLast? =
        (serverRun env [(req, ext)]).getLast?) := by
  have key : ∀ l : List (Request × Ext),
      (serverRun env (l ++ [(req, ext)])).getLast? =
        some (app env ext req) := by
    intro l
    rw [serverRun_append]
    show (serverRun env l ++ [app env ext req]).getLast? = _
    rw [List.getLast?_append_cons]
    rfl
  exact ⟨key hist, (key hist).trans (key hist').symm,
    fun s se => (key [(s, se)]).trans (key []).symm⟩

/-- Concrete instance of C9's theorem: an OTP verification preceded by
an OTP send answers exactly as it does alone. -/
theorem stateless_cross_request_witness :
    (serverRun env0
        ([(reqOtpSendOk, ext0)] ++ [(reqVerifyOk, ext0)])).getLast? =
      (serverRun env0 [(reqVerifyOk, ext0)]).getLast? :=
  (stateless_cross_request env0 [(reqOtpSendOk, ext0)] [] reqVerifyOk
    ext0).2.2 reqOtpSendOk ext0

/-- Fixture: a verification request whose `code` is a 6-element JSON
array. -/
def reqVerifyArr : Request :=
  { baseReq with
    method := "POST", segments := ["api", "otp", "verify"],
    path := "/api/otp/verify",
    body := .obj [("phoneNumber", .str "+15551234567"),
      ("code", .arr [.num 1, .num 2, .num 3, .num 4, .num 5, .num 6])] }

/-- Fixture: a verification request whose `code` is the JSON number
123456. -/
def reqVerifyNum : Request :=
  { baseReq with
    method := "POST", segments := ["api", "otp", "verify"],
    path := "/api/otp/verify",
    body := .obj [("phoneNumber", .str "+15551234567"),
      ("code", .num 123456)] }

/-- C10: verification is decided solely by the `.length` property of
the submitted `code` value (acceptance iff that property is the number
6, rejection otherwise with 400 and "Invalid verification code"); a
6-element array has `.length === 6` and is accepted, while the number
123456 has no `.length` and is rejected. -/
theorem verify_checks_only_length_property (env : Env) (ext : Ext)
    (req : Request) (hroute : routeOf req = some .otpVerify)
    (hp : truthy (req.bodyGet "phoneNumber") = true)
    (hc : truthy (req.bodyGet "code") = true) :
    ((app env ext req).1.status = 200 ↔
      strictEqSix (jsGetLength (req.bodyGet "code")) = true) ∧
    (strictEqSix (jsGetLength (req.bodyGet "code")) = false →
      (app env ext req).1.status = 400 ∧
      (app env ext req).1.jsonField "message" =
        .str "Invalid verification code") ∧
    jsGetLength (.arr [.num 1, .num 2, .num 3, .num 4, .num 5, .num 6]) =
      .num 6 ∧
    (app env0 ext0 reqVerifyArr).1.status = 200 ∧
    (app env0 ext0 reqVerifyArr).1.jsonField "success" = .bool true ∧
    jsGetLength (.num 123456) = .undefined ∧
    (app env0 ext0 reqVerifyNum).1.status = 400 ∧
    (app env0 ext0 reqVerifyNum).1.jsonField "message" =
      .str "Invalid verification code" := by
  refine ⟨?_, ?_, rfl, rfl, rfl, rfl, rfl, rfl⟩ <;>
    rw [app_eq_of_otpVerify env ext req hroute] <;>
    unfold verifyHandler <;>
    cases hlen : strictEqSix (jsGetLength (req.bodyGet "code")) <;>
    simp [hp, hc, hlen, jsonRes, Response.jsonField, getField, List.lookup]

/-- Concrete instance of C10's theorem at the array-coded request. -/
theorem verify_checks_only_length_property_witness :
    routeOf reqVerifyArr = some .otpVerify ∧
    truthy (reqVerifyArr.bodyGet "phoneNumber") = true ∧
    truthy (reqVerifyArr.bodyGet "code") = true ∧
    strictEqSix (jsGetLength (reqVerifyArr.bodyGet "code")) = true ∧
    (app env0 ext0 reqVerifyArr).1.status = 200 :=
  have h := verify_checks_only_length_property env0 ext0 reqVerifyArr
    rfl rfl rfl
  ⟨rfl, rfl, rfl, rfl, h.1.mpr rfl⟩

end Torrz
